import Mathlib

/-!
Verification development for the PestiScan web application.

The embedding covers:
* `PestiScan.Risk`   — the Risk Scoring Engine (`shared/risk.js`), modelled over `ℝ`;
* `PestiScan.Server` — the HTTP `/api/scan` endpoint and its placeholder scorer
  (`server/index.js`), modelled over `ℝ`;
* `PestiScan.Vision` — the Visual Stress Analyzer (`client/src/utils/leafVision.js`),
  modelled over `ℚ` (fully executable).

JavaScript numbers are modelled by `JNum` (`num x` for a finite number, `nan` for
`NaN`, `±Infinity` and non-numeric coercion results); an absent (`undefined`/`null`)
field is `Option JNum`'s `none`.  `Math.round x` is `⌊x + 1/2⌋`.
-/

namespace PestiScan

/-- JS `String.prototype.startsWith`: character-level prefix test. -/
def jsStartsWith (s p : String) : Bool := p.data.isPrefixOf s.data

noncomputable section

/-- JavaScript numeric value: a finite double (modelled as a real) or NaN/±Infinity
(collapsed into `nan`, which is exactly what `Number.isFinite` rejects). -/
inductive JNum where
  | num (x : ℝ)
  | nan

/-- The JS `a ?? b` operator on optional fields: `none` models `null`/`undefined`
(only those trigger the fallback; a NaN value does not). -/
def jor (a b : Option JNum) : Option JNum :=
  match a with
  | some v => some v
  | none => b

/-- Division of a JS number by a nonzero constant (`v / c`); NaN propagates. -/
def jdiv (v : JNum) (c : ℝ) : JNum :=
  match v with
  | .num x => .num (x / c)
  | .nan => .nan

/-- Clamp of a finite real: `Math.min(Math.max(x, min), max)`. -/
def clampR (x lo hi : ℝ) : ℝ := min (max x lo) hi

namespace Risk

/-- Source `clamp(n, min, max)` of `shared/risk.js` (lines 5–9): non-finite input
returns `min`, otherwise the value clamped into `[min, max]`. -/
def clampJ (v : JNum) (lo hi : ℝ) : ℝ :=
  match v with
  | .num x => clampR x lo hi
  | .nan => lo

/-- Source `clampNum(n, fallback)` (lines 11–14) applied to an optional field:
missing or non-finite input falls back, a finite number passes through. -/
def clampNum (v : Option JNum) (fallback : ℝ) : ℝ :=
  match v with
  | some (.num x) => x
  | _ => fallback

/-- Finite-number view of an optional JS value: `some x` exactly when
`Number.isFinite` holds of it. -/
def toFin (v : Option JNum) : Option ℝ :=
  match v with
  | some (.num x) => some x
  | _ => none

/-- JS `Math.round` (round half toward positive infinity). -/
def jround (x : ℝ) : ℤ := ⌊x + 1 / 2⌋

/-- Source `pct(x01)` (lines 16–18): `Math.round(clamp(x01, 0, 1) * 100)`. -/
def pct (x01 : ℝ) : ℤ := jround (clampR x01 0 1 * 100)

/-- Source `labelFromPercent(p)` (lines 20–25); `p` is the integer risk percent
(`clampNum` of a finite number is the identity). -/
def labelFromPercent (p : ℤ) : String :=
  if p ≤ 30 then "Low"
  else if p ≤ 60 then "Medium"
  else "High"

/-- Source `decayScore(daysSinceSpray, halfLifeDays)` (lines 32–42). -/
def decayScore (daysSinceSpray halfLifeDays : Option JNum) : ℝ :=
  let d := clampNum daysSinceSpray 0
  let h := clampNum halfLifeDays 0
  if h ≤ 0 then clampR 0.5 0 1
  else clampR (Real.exp (-(Real.log 2 * d) / h)) 0 1

/-- Source `doseScore(appliedDose, recommendedDose)` (lines 49–66). -/
def doseScore (appliedDose recommendedDose : Option JNum) : ℝ :=
  let applied := clampNum appliedDose 0
  let recd := clampNum recommendedDose 0
  if recd ≤ 0 then 0
  else
    let ratio := applied / recd
    let s : ℝ :=
      if ratio ≤ 0 then 0
      else if ratio ≤ 1 then 0.15 + 0.55 * ratio
      else 0.70 + 0.30 * Real.tanh ((ratio - 1) * 1.2)
    clampR s 0 1

/-- Source `phScore(leafPh, soilPh)` (lines 72–85). -/
def phScore (leafPh soilPh : Option JNum) : ℝ :=
  match toFin leafPh, toFin soilPh with
  | none, none => 0.25
  | lp, sp =>
    let leafDist := match lp with
      | some x => min (|x - 7| / 3) 1
      | none => 0.25
    let soilDist := match sp with
      | some x => min (|x - 7| / 3) 1
      | none => 0.25
    clampR (0.2 + 0.6 * (0.5 * leafDist + 0.5 * soilDist)) 0 1

/-- Source `moistureScore(moisture)` (lines 91–99). -/
def moistureScore (moisture : Option JNum) : ℝ :=
  match toFin moisture with
  | none => 0.35
  | some m => clampR (0.25 + 0.55 * clampR (m / 100) 0 1) 0 1

/-- The `weather` group with all field-name aliases read by `weatherScore`. -/
structure Weather where
  tempC : Option JNum := none
  temperatureC : Option JNum := none
  temperature : Option JNum := none
  humidity : Option JNum := none
  humidityPct : Option JNum := none
  rainfallMm : Option JNum := none
  rainMm : Option JNum := none
  rain : Option JNum := none
  windKph : Option JNum := none
  windSpeedKph : Option JNum := none
  wind : Option JNum := none

/-- Source `weatherScore(weather)` (lines 108–141): baseline 0.35 with additive
temperature bands, humidity, rainfall wash-off and wind terms, clamped. -/
def weatherScore (weather : Weather) : ℝ :=
  let tempC := toFin (jor weather.tempC (jor weather.temperatureC weather.temperature))
  let humidity := toFin (jor weather.humidity weather.humidityPct)
  let rainfallMm := toFin (jor weather.rainfallMm (jor weather.rainMm weather.rain))
  let windKph := toFin (jor weather.windKph (jor weather.windSpeedKph weather.wind))
  let s0 : ℝ := 0.35
  let s1 := match tempC with
    | none => s0
    | some t =>
        s0 + (if 18 ≤ t ∧ t ≤ 35 then 0.10 else 0)
           + (if 35 < t then 0.12 else 0)
           - (if t < 12 then 0.06 else 0)
  let s2 := match humidity with
    | none => s1
    | some hu => s1 + 0.18 * clampR (hu / 100) 0 1
  let s3 := match rainfallMm with
    | none => s2
    | some r => s2 - 0.20 * min (r / 20) 1
  let s4 := match windKph with
    | none => s3
    | some w => s3 + 0.06 * clampR (w / 35) 0 1
  clampR s4 0 1

/-- Confidence factor of `computeAiContribution` (line 153):
`clamp(confidence / 100, 0.3, 1)` after the default `confidence = 50` for a
missing argument. -/
def confFactor (confidence : Option JNum) : ℝ :=
  clampJ (jdiv (confidence.getD (.num 50)) 100) 0.3 1

/-- Time-decay factor of `computeAiContribution` (lines 156–159). -/
def timeFactorOf (daysSinceSpray : Option JNum) : ℝ :=
  let d := clampNum daysSinceSpray 0
  if 14 ≤ d then 0.4
  else if 7 ≤ d then 0.65
  else 1

/-- Clamped stress of `computeAiContribution` (line 152): `clamp(stressScore / 100, 0, 1)`. -/
def stressOf (s : JNum) : ℝ := clampJ (jdiv s 100) 0 1

/-- Mid-range softening of `computeAiContribution` (lines 162–165). -/
def soften (stress : ℝ) : ℝ :=
  if stress < 0.4 then stress * 0.7
  else if stress < 0.7 then stress * 0.85
  else stress * 1.0

/-- Source `computeAiContribution({stressScore, confidence = 50, daysSinceSpray})`
(lines 149–171): 0 when `stressScore == null`, otherwise the softened stress times
confidence and time factors, scaled by 0.25 and hard-capped at 0.25. -/
def computeAiContribution (stressScore confidence daysSinceSpray : Option JNum) : ℝ :=
  match stressScore with
  | none => 0
  | some s =>
      min (soften (stressOf s) * confFactor confidence * timeFactorOf daysSinceSpray * 0.25) 0.25

/-- The `inputs` group of the scoring payload, with every field-name alias read
by `calculateRisk` (lines 183–192); absent fields are `none`. -/
structure Inputs where
  appliedDose : Option JNum := none
  dose : Option JNum := none
  userDose : Option JNum := none
  recommendedDose : Option JNum := none
  recDose : Option JNum := none
  recommended : Option JNum := none
  daysSinceSpray : Option JNum := none
  days : Option JNum := none
  sprayDays : Option JNum := none
  halfLifeDays : Option JNum := none
  halfLife : Option JNum := none
  halflife : Option JNum := none
  leafPh : Option JNum := none
  leafPH : Option JNum := none
  soilPh : Option JNum := none
  soilPH : Option JNum := none
  moisture : Option JNum := none
  imageStress : Option JNum := none

/-- The `ai` group of the scoring payload (line 181, read at lines 192–193). -/
structure Ai where
  stressScore : Option JNum := none
  imageStress : Option JNum := none
  confidence : Option JNum := none

/-- The merged scoring payload `{ inputs, weather, ai }` (lines 179–181); a
missing group defaults to the empty object. -/
structure Payload where
  inputs : Inputs := {}
  weather : Weather := {}
  ai : Ai := {}

/-- The stable breakdown schema of the result (lines 258–267). -/
structure Breakdown where
  doseScore : ℝ
  decayScore : ℝ
  weatherScore : ℝ
  moistureScore : ℝ
  phScore : ℝ
  aiContribution : ℝ
  baseScore : ℝ
  totalScore : ℝ

/-- The Scoring Engine result `{ riskPercent, level, breakdown, tips }`. -/
structure RiskResult where
  riskPercent : ℤ
  level : String
  breakdown : Breakdown
  tips : List String

/-- Local `appliedDose` of `calculateRisk` (line 183). -/
def appliedDoseOf (p : Payload) : Option JNum :=
  jor p.inputs.appliedDose (jor p.inputs.dose p.inputs.userDose)

/-- Local `recommendedDose` of `calculateRisk` (line 184). -/
def recommendedDoseOf (p : Payload) : Option JNum :=
  jor p.inputs.recommendedDose (jor p.inputs.recDose p.inputs.recommended)

/-- Local `daysSinceSpray` of `calculateRisk` (line 185). -/
def daysOf (p : Payload) : Option JNum :=
  jor p.inputs.daysSinceSpray (jor p.inputs.days p.inputs.sprayDays)

/-- Local `halfLifeDays` of `calculateRisk` (line 186). -/
def halfLifeOf (p : Payload) : Option JNum :=
  jor p.inputs.halfLifeDays (jor p.inputs.halfLife p.inputs.halflife)

/-- Local `leafPh` of `calculateRisk` (line 188). -/
def leafPhOf (p : Payload) : Option JNum := jor p.inputs.leafPh p.inputs.leafPH

/-- Local `soilPh` of `calculateRisk` (line 189). -/
def soilPhOf (p : Payload) : Option JNum := jor p.inputs.soilPh p.inputs.soilPH

/-- Local `aiStress` of `calculateRisk` (line 192), with the legacy fallbacks. -/
def aiStressOf (p : Payload) : Option JNum :=
  jor p.ai.stressScore (jor p.ai.imageStress p.inputs.imageStress)

/-- Local `aiConfidence` of `calculateRisk` (line 193): `ai.confidence ?? 50`. -/
def aiConfidenceOf (p : Payload) : Option JNum :=
  jor p.ai.confidence (some (.num 50))

/-- Component score `sDose` (line 196). -/
def sDoseOf (p : Payload) : ℝ := doseScore (appliedDoseOf p) (recommendedDoseOf p)

/-- Component score `sDecay` (line 197). -/
def sDecayOf (p : Payload) : ℝ := decayScore (daysOf p) (halfLifeOf p)

/-- Component score `sPh` (line 198). -/
def sPhOf (p : Payload) : ℝ := phScore (leafPhOf p) (soilPhOf p)

/-- Component score `sMoist` (line 199). -/
def sMoistOf (p : Payload) : ℝ := moistureScore p.inputs.moisture

/-- Component score `sWeather` (line 200). -/
def sWeatherOf (p : Payload) : ℝ := weatherScore p.weather

/-- The AI contribution of the payload (lines 203–207). -/
def aiContributionOf (p : Payload) : ℝ :=
  computeAiContribution (aiStressOf p) (aiConfidenceOf p) (daysOf p)

/-- The clamped weighted base score (lines 213–227), weights
0.22/0.28/0.18/0.14/0.10. -/
def baseOf (p : Payload) : ℝ :=
  clampR (0.22 * sDoseOf p + 0.28 * sDecayOf p + 0.18 * sWeatherOf p
          + 0.14 * sMoistOf p + 0.10 * sPhOf p) 0 1

/-- `total01 = clamp(base + aiContribution, 0, 1)` (line 230). -/
def total01Of (p : Payload) : ℝ := clampR (baseOf p + aiContributionOf p) 0 1

/-- The raw risk percent before the sanity rules (line 233). -/
def rp0Of (p : Payload) : ℤ := pct (total01Of p)

/-- Local `d` of the sanity rules (line 237). -/
def dOf (p : Payload) : ℝ := clampNum (daysOf p) 0

/-- Risk percent after sanity rule 1 (lines 240–242): long after spray, the AI
alone cannot keep the percent above 55. -/
def rp1Of (p : Payload) : ℤ :=
  if 20 ≤ dOf p ∧ 60 < rp0Of p ∧ 0.15 < aiContributionOf p
  then min (rp0Of p) 55 else rp0Of p

/-- Risk percent after sanity rule 2 (lines 246–248): low dose and strong decay
cap the percent at 45. -/
def rp2Of (p : Payload) : ℤ :=
  if sDoseOf p < 0.2 ∧ sDecayOf p < 0.2 then min (rp1Of p) 45 else rp1Of p

/-- Risk percent after sanity rule 3 (lines 251–253): high AI stress under low
confidence subtracts 10, floored at 0. -/
def rp3Of (p : Payload) : ℤ :=
  if 80 < clampNum (aiStressOf p) 0 ∧ clampNum (aiConfidenceOf p) 0 < 40
  then max (rp2Of p - 10) 0 else rp2Of p

/-- The advisory tips (lines 269–279), in source order. -/
def tipsOf (p : Payload) : List String :=
  (if 61 ≤ rp3Of p
   then ["High risk: follow label intervals and consider waiting before harvest."] else [])
  ++ (if dOf p < 3
      then ["Recent spray: residue is likely higher in the first few days."] else [])
  ++ (match toFin (recommendedDoseOf p), toFin (appliedDoseOf p) with
      | some recd, some applied =>
          if 0 < recd ∧ 1.05 < applied / recd
          then ["Applied dose looks higher than recommended. Verify dilution and nozzle calibration."]
          else []
      | _, _ => [])
  ++ (if 80 ≤ clampNum p.weather.humidity 0
      then ["High humidity can increase plant stress; confirm with field conditions."] else [])
  ++ (if (aiStressOf p).isSome ∧ 75 ≤ clampNum (aiStressOf p) 0
      then ["Leaf stress detected: inspect for pests, disease, or nutrient stress too."] else [])

/-- Source `calculateRisk(payload)` (lines 178–287): component scores, capped AI
contribution, weighted fusion, the three sanity rules, level label, breakdown
and tips. -/
def calculateRisk (p : Payload) : RiskResult where
  riskPercent := rp3Of p
  level := labelFromPercent (rp3Of p)
  breakdown :=
    { doseScore := sDoseOf p
      decayScore := sDecayOf p
      weatherScore := sWeatherOf p
      moistureScore := sMoistOf p
      phScore := sPhOf p
      aiContribution := aiContributionOf p
      baseScore := baseOf p
      totalScore := clampR ((rp3Of p : ℝ) / 100) 0 1 }
  tips := tipsOf p

end Risk

namespace Server

/-- Source `toNumber(v)` of `server/index.js` (lines 35–38): `some x` for a
finite coercion result, `none` for NaN (absent field or non-numeric value). -/
def toNumber (v : Option JNum) : Option ℝ :=
  match v with
  | some (.num x) => some x
  | _ => none

/-- Source `riskLevelFromPercent(p)` (lines 40–45); `none` models a non-finite
percent. -/
def riskLevelFromPercent (p : Option ℤ) : String :=
  match p with
  | none => "—"
  | some x => if 70 ≤ x then "High" else if 35 ≤ x then "Medium" else "Low"

/-- Source `clamp01(x)` (lines 47–49) on a finite real. -/
def clamp01 (x : ℝ) : ℝ := min 1 (max 0 x)

/-- The nested `weather` group of the scan inputs (lines 64–66). -/
structure SWeather where
  tempC : Option JNum := none
  humidity : Option JNum := none
  rainMm24h : Option JNum := none

/-- The parsed `inputs` JSON of the `/api/scan` request (lines 56–66, 201–203). -/
structure SInputs where
  crop : Option String := none
  pesticide : Option String := none
  recommendedDose : Option JNum := none
  daysSinceSpray : Option JNum := none
  halfLifeDays : Option JNum := none
  leafPh : Option JNum := none
  soilPh : Option JNum := none
  soilMoisture : Option JNum := none
  imageStress : Option JNum := none
  weather : Option SWeather := none

/-- The placeholder breakdown (lines 118–126); `doseScore` is a `JNum` because
`clamp01` of a NaN `recommendedDose` stays NaN in JS. -/
structure SBreakdown where
  doseScore : JNum
  residueFactor : ℝ
  leafPhScore : ℝ
  soilPhScore : ℝ
  moistureScore : ℝ
  weatherScore : ℝ
  imageStressScore : ℝ

/-- The placeholder scorer result (lines 115–128); `riskPercent = none` models
the NaN percent arising from a NaN dose score. -/
structure SResult where
  riskPercent : Option ℤ
  level : String
  breakdown : SBreakdown
  tips : List String

/-- Source `buildTips(...)` (lines 131–145). -/
def buildTips (riskPercent : Option ℤ) (doseScore : JNum) (residueFactor weatherScore imageStressScore : ℝ) : List String :=
  ((match riskPercent with
    | some p =>
        (if 70 ≤ p
         then ["High risk detected: avoid immediate harvest and consider expert guidance."] else [])
        ++ (if 35 ≤ p ∧ p < 70
            then ["Moderate risk: monitor plant response and avoid over-application."] else [])
        ++ (if p < 35
            then ["Low risk: continue monitoring and follow label instructions."] else [])
    | none => [])
  ++ (match doseScore with
      | .num d =>
          if 0.65 < d
          then ["Dose seems high relative to recommended. Reduce dose next spray if possible."] else []
      | .nan => [])
  ++ (if 0.65 < residueFactor
      then ["Recent spray detected. Risk may drop after a few more days."] else [])
  ++ (if 0.6 < weatherScore
      then ["Weather stress is high (heat/humidity/rain). Prefer spraying in cooler, calmer conditions."] else [])
  ++ (if 0.6 < imageStressScore
      then ["Leaf appears stressed. Avoid additional stress (over-spraying, midday spraying)."] else [])
  ++ ["Always follow label safety intervals and wear protection while spraying."]).take 8

/-- Source `computeRisk(inputs)` (lines 55–129): the v1 placeholder scoring used
by the `/api/scan` endpoint, with its own component formulas and weights. -/
def computeRisk (inputs : SInputs) : SResult :=
  let recommendedDose := toNumber inputs.recommendedDose
  let daysSinceSpray := toNumber inputs.daysSinceSpray
  let halfLifeDays := toNumber inputs.halfLifeDays
  let leafPh := toNumber inputs.leafPh
  let soilPh := toNumber inputs.soilPh
  let soilMoisture := toNumber inputs.soilMoisture
  let imageStress := toNumber inputs.imageStress
  let wtr := inputs.weather.getD {}
  let tempC := toNumber wtr.tempC
  let humidity := toNumber wtr.humidity
  let rainMm24h := toNumber wtr.rainMm24h
  let doseScoreJ : JNum :=
    match recommendedDose with
    | some rd => .num (clamp01 ((rd - 1) / 3 + 0.4))
    | none => .nan
  let residueFactor : ℝ :=
    match daysSinceSpray, halfLifeDays with
    | some d, some hl =>
        if 0 < hl then clamp01 (Real.exp (-(Real.log 2) * (d / hl))) else 0.6
    | _, _ => 0.6
  let leafPhScore : ℝ :=
    match leafPh with
    | some x => clamp01 (|6.5 - x| / 3)
    | none => 0.2
  let soilPhScore : ℝ :=
    match soilPh with
    | some x => clamp01 (|6.8 - x| / 3)
    | none => 0.2
  let moistureScore : ℝ :=
    match soilMoisture with
    | some m => clamp01 (|55 - m| / 55)
    | none => 0.2
  let weatherScore : ℝ :=
    if tempC.isSome ∨ humidity.isSome ∨ rainMm24h.isSome then
      let t := match tempC with | some x => clamp01 ((x - 25) / 15) | none => 0.2
      let hu := match humidity with | some x => clamp01 ((x - 55) / 40) | none => 0.2
      let r := match rainMm24h with | some x => clamp01 (x / 80) | none => 0.0
      clamp01 (0.55 * t + 0.35 * hu + 0.10 * r)
    else 0.2
  let imageStressScore : ℝ :=
    match imageStress with
    | some i => clamp01 (i / 100)
    | none => 0.25
  let risk01 : JNum :=
    match doseScoreJ with
    | .num ds =>
        .num (0.22 * ds + 0.24 * residueFactor + 0.14 * leafPhScore
              + 0.10 * soilPhScore + 0.10 * moistureScore + 0.10 * weatherScore
              + 0.10 * imageStressScore)
    | .nan => .nan
  let riskPercent : Option ℤ :=
    match risk01 with
    | .num x => some (Risk.jround (clamp01 x * 100))
    | .nan => none
  { riskPercent := riskPercent
    level := riskLevelFromPercent riskPercent
    breakdown :=
      { doseScore := doseScoreJ
        residueFactor := residueFactor
        leafPhScore := leafPhScore
        soilPhScore := soilPhScore
        moistureScore := moistureScore
        weatherScore := weatherScore
        imageStressScore := imageStressScore }
    tips := buildTips riskPercent doseScoreJ residueFactor weatherScore imageStressScore }

/-- The uploaded multipart file (`req.file`). -/
structure UploadFile where
  mimetype : String
  size : ℕ

/-- The `meta` object attached to a successful scan response (lines 199–206). -/
structure ScanMeta where
  crop : Option String
  pesticide : Option String
  recommendedDose : Option JNum
  fileMimetype : String
  fileSize : ℕ

/-- An HTTP response of the `/api/scan` endpoint: a 400 error or the JSON body
spreading the scorer output plus `meta`. -/
inductive ScanResponse where
  | badRequest (error : String)
  | ok (body : SResult) (meta : ScanMeta)

/-- Source `app.post("/api/scan")` handler (lines 161–212): image and inputs
validation, the `recommendedDose > 0` gate, then the placeholder scorer; the
multipart parsing itself is the HTTP framework's. -/
def scanHandler (file : Option UploadFile) (inputs : Option SInputs) : ScanResponse :=
  match file with
  | none => .badRequest "Leaf image is required."
  | some f =>
    if ¬ jsStartsWith f.mimetype ("image/") then
      .badRequest "Invalid file type. Please upload an image."
    else
      match inputs with
      | none => .badRequest "inputs is required."
      | some ins =>
        match toNumber ins.recommendedDose with
        | some rd =>
          if 0 < rd then
            .ok (computeRisk ins)
              { crop := ins.crop
                pesticide := ins.pesticide
                recommendedDose := ins.recommendedDose
                fileMimetype := f.mimetype
                fileSize := f.size }
          else .badRequest "recommendedDose is required and must be > 0"
        | none => .badRequest "recommendedDose is required and must be > 0"

/-- Risk percent relayed by a scan response (`none` for an error response). -/
def respRiskPercent : ScanResponse → Option (Option ℤ)
  | .badRequest _ => none
  | .ok body _ => some body.riskPercent

/-- Level relayed by a scan response (`none` for an error response). -/
def respLevel : ScanResponse → Option String
  | .badRequest _ => none
  | .ok body _ => some body.level

end Server

end

namespace Vision

/-- A raster pixel with 0–255 RGB channels (`client/src/utils/leafVision.js`). -/
structure RGB where
  r : ℚ
  g : ℚ
  b : ℚ

/-- HSV triple as produced by `rgbToHsv` (hue in degrees, saturation and value
in `[0,1]`). -/
structure HSV where
  h : ℚ
  s : ℚ
  v : ℚ

/-- Source `clamp(n, a, b)` of `leafVision.js` (lines 1347–1349). -/
def clampQ (n a b : ℚ) : ℚ := min b (max a n)

/-- JS `Math.round` on a rational (round half toward positive infinity). -/
def jroundQ (x : ℚ) : ℤ := ⌊x + 1 / 2⌋

/-- JS truncation toward zero, as used by the `%` remainder operator. -/
def jsTrunc (q : ℚ) : ℤ := if 0 ≤ q then ⌊q⌋ else ⌈q⌉

/-- JS remainder `a % n` (sign follows the dividend). -/
def jsRem (a n : ℚ) : ℚ := a - n * (jsTrunc (a / n) : ℚ)

/-- Source `rgbToHsv(r, g, b)` (lines 1382–1398). -/
def rgbToHsv (r0 g0 b0 : ℚ) : HSV :=
  let r := r0 / 255
  let g := g0 / 255
  let b := b0 / 255
  let mx := max r (max g b)
  let mn := min r (min g b)
  let d := mx - mn
  let hh : ℚ :=
    if d ≠ 0 then
      let h0 :=
        if mx = r then jsRem ((g - b) / d) 6
        else if mx = g then (b - r) / d + 2
        else (r - g) / d + 4
      let h1 := h0 * 60
      if h1 < 0 then h1 + 360 else h1
    else 0
  let s := if mx = 0 then 0 else d / mx
  { h := hh, s := s, v := mx }

/-- Pixel classifier `isLeafLike` (line 1480): hue 55–170, sat > 0.18, val > 0.12. -/
def isLeafLike (c : RGB) : Bool :=
  let hs := rgbToHsv c.r c.g c.b
  decide (55 ≤ hs.h) && decide (hs.h ≤ 170) && decide ((0.18 : ℚ) < hs.s)
    && decide ((0.12 : ℚ) < hs.v)

/-- Pixel classifier `isGreen` (line 1483). -/
def isGreen (c : RGB) : Bool :=
  let hs := rgbToHsv c.r c.g c.b
  decide (70 ≤ hs.h) && decide (hs.h ≤ 160) && decide ((0.22 : ℚ) < hs.s)
    && decide ((0.14 : ℚ) < hs.v)

/-- Pixel classifier `isYellow` (line 1486). -/
def isYellow (c : RGB) : Bool :=
  let hs := rgbToHsv c.r c.g c.b
  decide (35 ≤ hs.h) && decide (hs.h < 70) && decide ((0.18 : ℚ) < hs.s)
    && decide ((0.18 : ℚ) < hs.v)

/-- Pixel classifier `isBrown` (line 1489): hue in `[10,35) ∪ [0,10)`. -/
def isBrown (c : RGB) : Bool :=
  let hs := rgbToHsv c.r c.g c.b
  ((decide (10 ≤ hs.h) && decide (hs.h < 35)) || (decide (0 ≤ hs.h) && decide (hs.h < 10)))
    && decide ((0.16 : ℚ) < hs.s) && decide ((0.10 : ℚ) < hs.v)

/-- Pixel classifier `isDark` (line 1492): val < 0.22 and sat > 0.12. -/
def isDark (c : RGB) : Bool :=
  let hs := rgbToHsv c.r c.g c.b
  decide (hs.v < 0.22) && decide ((0.12 : ℚ) < hs.s)

/-- Low-saturation test `s < 0.08` (line 1478). -/
def isSatLow (c : RGB) : Bool :=
  let hs := rgbToHsv c.r c.g c.b
  decide (hs.s < 0.08)

/-- Edge-band width (line 1464): `Math.max(2, Math.round(Math.min(w, h) * 0.10))`. -/
def edgeBandOf (w h : ℕ) : ℤ := max 2 (jroundQ ((min w h : ℚ) * 0.10))

/-- Edge-band membership of a pixel (line 1495). -/
def isEdge (w h : ℕ) (band : ℤ) (x y : ℕ) : Bool :=
  decide ((x : ℤ) < band) || decide ((y : ℤ) < band)
    || decide ((w : ℤ) - band ≤ (x : ℤ)) || decide ((h : ℤ) - band ≤ (y : ℤ))

/-- Count of raster positions satisfying a predicate, over the single scan of
lines 1468–1501. -/
def countIf (w h : ℕ) (p : ℕ → ℕ → Bool) : ℕ :=
  ∑ y ∈ Finset.range h, ∑ x ∈ Finset.range w, if p x y then 1 else 0

/-- A decoded image: original dimensions plus the downsampled raster that
`getImageData` (an external canvas collaborator, lines 1367–1380) hands to the
analysis loop. -/
structure Img where
  width : ℕ
  height : ℕ
  w : ℕ
  h : ℕ
  px : ℕ → ℕ → RGB

/-- Grayscale luma of a raster pixel (line 1473). -/
def grayAt (img : Img) (x y : ℕ) : ℚ :=
  0.2126 * (img.px x y).r + 0.7152 * (img.px x y).g + 0.0722 * (img.px x y).b

/-- Discrete Laplacian at an interior pixel (lines 1409–1415). -/
def lapAt (img : Img) (x y : ℕ) : ℚ :=
  4 * grayAt img x y
    - (grayAt img x (y - 1) + grayAt img x (y + 1) + grayAt img (x + 1) y + grayAt img (x - 1) y)

/-- Sum of the Laplacian over interior pixels (`sum`, lines 1401–1420). -/
def lapSum (img : Img) : ℚ :=
  ∑ y ∈ Finset.Ico 1 (img.h - 1), ∑ x ∈ Finset.Ico 1 (img.w - 1), lapAt img x y

/-- Sum of squared Laplacians over interior pixels (`sumSq`). -/
def lapSqSum (img : Img) : ℚ :=
  ∑ y ∈ Finset.Ico 1 (img.h - 1), ∑ x ∈ Finset.Ico 1 (img.w - 1), lapAt img x y * lapAt img x y

/-- Number of interior pixels visited by the Laplacian loop (`count`). -/
def lapCount (img : Img) : ℕ := (img.h - 1 - 1) * (img.w - 1 - 1)

/-- Source `laplacianVariance(gray, w, h)` (lines 1400–1424):
`E[lap²] − E[lap]²` over interior pixels. -/
def laplacianVariance (img : Img) : ℚ :=
  let mean := lapSum img / (max 1 (lapCount img) : ℚ)
  lapSqSum img / (max 1 (lapCount img) : ℚ) - mean * mean

/-- An uploaded file as the Analyzer sees it: mimetype, byte size, and the
decode outcome of `loadImageFromFile` (`none` when decoding rejects). -/
structure LeafFile where
  type : String
  size : ℚ
  decoded : Option Img

/-- The `metrics` object of the Analyzer result (lines 1541–1553); values are
kept exact (the source applies display-only `toFixed` rounding). -/
structure Metrics where
  w : ℕ
  h : ℕ
  aspect : ℚ
  fileMB : ℚ
  leafCoverage : ℚ
  greenRatio : ℚ
  yellowRatio : ℚ
  brownRatio : ℚ
  darkSpotRatio : ℚ
  edgeBurnRatio : ℚ
  satLowRatio : ℚ
  detail : ℚ

/-- The Analyzer result `{ ok, reasons, metrics, imageStress, symptoms }`;
`metrics = none` models the empty `{}` of the decode-failure return. -/
structure VisionResult where
  ok : Bool
  reasons : List String
  metrics : Option Metrics
  imageStress : ℤ
  symptoms : List String

/-- Source `analyzeLeafPhoto(file, opts)` (lines 1426–1557) at the default
options (minWidth = minHeight = 480, maxFileMB = 8, minLeafCoverage = 0.18,
minDetail = 35, maxAspect = 2.3): metadata checks, decode guard, per-pixel
classification, detail variance, quality gate, stress score and symptom tags. -/
def analyzeLeafPhoto (file : LeafFile) : VisionResult :=
  let reasons0 :=
    (if ¬ jsStartsWith file.type ("image/")
     then ["Please upload a real photo (JPG/PNG/WebP)."] else [])
    ++ (if (8 : ℚ) * 1024 * 1024 < file.size then ["Image too large (max 8MB)."] else [])
  match file.decoded with
  | none =>
      { ok := false
        reasons := ["Could not read image. Try another photo."]
        metrics := none
        imageStress := 50
        symptoms := [] }
  | some img =>
      let reasons1 := reasons0
        ++ (if img.width < 480 ∨ img.height < 480
            then ["Image too small. Use at least 480×480."] else [])
      let aspect : ℚ := (img.width : ℚ) / (img.height : ℚ)
      let reasons2 := reasons1
        ++ (if (2.3 : ℚ) < aspect ∨ aspect < 1 / 2.3
            then ["Weird aspect ratio. Avoid screenshots/collages."] else [])
      let w := img.w
      let h := img.h
      let total := w * h
      let band := edgeBandOf w h
      let leafLike := countIf w h (fun x y => isLeafLike (img.px x y))
      let green := countIf w h (fun x y => isGreen (img.px x y))
      let yellow := countIf w h (fun x y => isYellow (img.px x y))
      let brown := countIf w h (fun x y => isBrown (img.px x y))
      let darkSpot := countIf w h (fun x y => isLeafLike (img.px x y) && isDark (img.px x y))
      let satLowCount := countIf w h (fun x y => isSatLow (img.px x y))
      let edgeTotal := countIf w h (fun x y => isEdge w h band x y)
      let edgeBrown := countIf w h (fun x y => isEdge w h band x y && isBrown (img.px x y))
      let leafCoverage := (leafLike : ℚ) / (max 1 total : ℚ)
      let greenRatio := (green : ℚ) / (max 1 total : ℚ)
      let yellowRatio := (yellow : ℚ) / (max 1 total : ℚ)
      let brownRatio := (brown : ℚ) / (max 1 total : ℚ)
      let darkSpotRatio := (darkSpot : ℚ) / (max 1 total : ℚ)
      let edgeBurnRatio := (edgeBrown : ℚ) / (max 1 edgeTotal : ℚ)
      let satLowRatio := (satLowCount : ℚ) / (max 1 total : ℚ)
      let detail := laplacianVariance img
      let reasons3 := reasons2
        ++ (if leafCoverage < 0.18
            then ["Leaf not clearly visible. Move closer and fill the frame with the leaf."] else [])
        ++ (if detail < 35
            then ["Photo looks too blurry. Hold steady and use better lighting."] else [])
        ++ (if (0.65 : ℚ) < satLowRatio
            then ["Photo looks like a screenshot/graphic. Upload a real leaf photo."] else [])
      let ok := reasons3.isEmpty
      let stress0 := clampQ
        (1.8 * yellowRatio + 2.2 * brownRatio + 1.6 * darkSpotRatio
          + 1.8 * edgeBurnRatio - 0.8 * greenRatio) 0 1
      let stress1 := if detail < 35 * 1.6 then clampQ (stress0 + 0.08) 0 1 else stress0
      let imageStress := jroundQ (stress1 * 100)
      let symptoms0 :=
        (if (0.08 : ℚ) < yellowRatio then ["Yellowing (chlorosis)"] else [])
        ++ (if (0.05 : ℚ) < brownRatio then ["Browning / necrosis"] else [])
        ++ (if (0.08 : ℚ) < edgeBurnRatio then ["Edge burn"] else [])
        ++ (if (0.03 : ℚ) < darkSpotRatio then ["Spots / lesions"] else [])
      let symptoms := symptoms0
        ++ (if (0.20 : ℚ) < greenRatio ∧ symptoms0 = [] then ["Mostly healthy green"] else [])
      { ok := ok
        reasons := reasons3
        metrics := some
          { w := w
            h := h
            aspect := aspect
            fileMB := file.size / (1024 * 1024)
            leafCoverage := leafCoverage
            greenRatio := greenRatio
            yellowRatio := yellowRatio
            brownRatio := brownRatio
            darkSpotRatio := darkSpotRatio
            edgeBurnRatio := edgeBurnRatio
            satLowRatio := satLowRatio
            detail := detail }
        imageStress := imageStress
        symptoms := symptoms }

end Vision

/-! Concrete inputs used by witnesses and counterexamples. -/

/-- The end-to-end scenario payload of the spec:
`{appliedDose: 1, recommendedDose: 1, daysSinceSpray: 0, halfLifeDays: 5}`,
no weather, no ai. -/
def scenarioPayload : Risk.Payload :=
  { inputs :=
      { appliedDose := some (.num 1)
        recommendedDose := some (.num 1)
        daysSinceSpray := some (.num 0)
        halfLifeDays := some (.num 5) } }

/-- The low-dose strong-decay payload
`{appliedDose: 0, recommendedDose: 10, daysSinceSpray: 60, halfLifeDays: 3}`
with arbitrary AI stress and confidence. -/
def lowDosePayload (stress conf : Option JNum) : Risk.Payload :=
  { inputs :=
      { appliedDose := some (.num 0)
        recommendedDose := some (.num 10)
        daysSinceSpray := some (.num 60)
        halfLifeDays := some (.num 3) }
    ai := { stressScore := stress, confidence := conf } }

/-- A payload that triggers sanity rule 3 (AI stress 90, confidence 30,
unknown half-life): the raw percent 50 is lowered to 40. -/
def sanity3Payload : Risk.Payload :=
  { inputs :=
      { appliedDose := some (.num 1)
        recommendedDose := some (.num 1)
        daysSinceSpray := some (.num 0)
        halfLifeDays := some (.num (-1)) }
    ai := { stressScore := some (.num 90), confidence := some (.num 30) } }

/-- A valid uploaded image file for the scan endpoint. -/
def scanFile1 : Server.UploadFile := { mimetype := "image/png", size := 2048 }

/-- Scan inputs carrying only `recommendedDose = 1`. -/
def scanInputs1 : Server.SInputs := { recommendedDose := some (.num 1) }

/-- The same payload `{recommendedDose: 1}` as a Scoring Engine payload. -/
def scanPayload1 : Risk.Payload := { inputs := { recommendedDose := some (.num 1) } }

/-- A 2×2 uniform mid-gray raster inside a 600×600 image. -/
def grayImg : Vision.Img :=
  { width := 600, height := 600, w := 2, h := 2, px := fun _ _ => ⟨128, 128, 128⟩ }

/-- An image file decoding to the uniform mid-gray raster. -/
def grayFile : Vision.LeafFile :=
  { type := "image/jpeg", size := 100000, decoded := some grayImg }

/-- An image file whose decode fails. -/
def badFile : Vision.LeafFile := { type := "image/png", size := 4096, decoded := none }

/-! Helper lemmas. -/

lemma clampR_le_hi (x lo hi : ℝ) : clampR x lo hi ≤ hi := min_le_right _ _

lemma le_clampR {lo hi : ℝ} (x : ℝ) (h : lo ≤ hi) : lo ≤ clampR x lo hi :=
  le_min (le_max_right _ _) h

lemma clampR_eq_self {x lo hi : ℝ} (h1 : lo ≤ x) (h2 : x ≤ hi) : clampR x lo hi = x := by
  unfold clampR
  rw [max_eq_left h1, min_eq_left h2]

lemma clampR_lt_one {x : ℝ} (h : x < 1) : clampR x 0 1 < 1 := by
  unfold clampR
  exact lt_of_le_of_lt (min_le_left _ _) (max_lt h one_pos)

lemma tanh_lt_one (x : ℝ) : Real.tanh x < 1 := by
  rw [Real.tanh_eq_sinh_div_cosh]
  exact (div_lt_one (Real.cosh_pos x)).mpr (Real.sinh_lt_cosh x)

lemma tanh_nonneg {x : ℝ} (hx : 0 ≤ x) : 0 ≤ Real.tanh x := by
  rw [Real.tanh_eq_sinh_div_cosh]
  exact div_nonneg (Real.sinh_nonneg_iff.mpr hx) (Real.cosh_pos x).le

lemma confFactor_mem (c : Option JNum) :
    0.3 ≤ Risk.confFactor c ∧ Risk.confFactor c ≤ 1 := by
  rcases c with _ | v
  · constructor <;> norm_num [Risk.confFactor, Risk.clampJ, jdiv, clampR]
  · rcases v with x | _
    · exact ⟨le_clampR _ (by norm_num), clampR_le_hi _ _ _⟩
    · constructor <;> norm_num [Risk.confFactor, Risk.clampJ, jdiv]

lemma soften_mem {x : ℝ} (h0 : 0 ≤ x) (h1 : x ≤ 1) :
    0 ≤ Risk.soften x ∧ Risk.soften x ≤ 1 := by
  unfold Risk.soften
  split_ifs <;> constructor <;> linarith

lemma timeFactorOf_mem (d : Option JNum) :
    0 ≤ Risk.timeFactorOf d ∧ Risk.timeFactorOf d ≤ 1 := by
  simp only [Risk.timeFactorOf]
  split_ifs <;> norm_num

lemma stressOf_mem (v : JNum) : 0 ≤ Risk.stressOf v ∧ Risk.stressOf v ≤ 1 := by
  rcases v with x | _
  · exact ⟨le_clampR _ (by norm_num), clampR_le_hi _ _ _⟩
  · constructor <;> norm_num [Risk.stressOf, Risk.clampJ, jdiv]

lemma phScore_none_none : Risk.phScore none none = 0.25 := rfl

lemma moistureScore_none : Risk.moistureScore none = 0.35 := rfl

lemma weatherScore_empty : Risk.weatherScore {} = 0.35 := by
  simp only [Risk.weatherScore, jor, Risk.toFin]
  exact clampR_eq_self (by norm_num) (by norm_num)

lemma doseScore_one_one : Risk.doseScore (some (.num 1)) (some (.num 1)) = 0.7 := by
  simp only [Risk.doseScore, Risk.clampNum]
  rw [if_neg (by norm_num : ¬ (1:ℝ) ≤ 0)]
  rw [if_neg (by norm_num : ¬ (1:ℝ)/1 ≤ 0), if_pos (by norm_num : (1:ℝ)/1 ≤ 1)]
  rw [show 0.15 + 0.55 * ((1:ℝ)/1) = 0.7 by norm_num]
  exact clampR_eq_self (by norm_num) (by norm_num)

lemma decayScore_zero_five : Risk.decayScore (some (.num 0)) (some (.num 5)) = 1 := by
  simp only [Risk.decayScore, Risk.clampNum]
  rw [if_neg (by norm_num : ¬ (5:ℝ) ≤ 0)]
  rw [show -(Real.log 2 * 0) / 5 = (0:ℝ) by norm_num, Real.exp_zero]
  exact clampR_eq_self (by norm_num) (by norm_num)

lemma pct_eval {x : ℝ} {n : ℤ} (h0 : 0 ≤ x) (h1 : x ≤ 1)
    (h2 : (n : ℝ) ≤ x * 100 + 1 / 2) (h3 : x * 100 + 1 / 2 < n + 1) :
    Risk.pct x = n := by
  simp only [Risk.pct, Risk.jround, clampR_eq_self h0 h1]
  exact Int.floor_eq_iff.mpr ⟨h2, by push_cast; linarith⟩

lemma scenario_sDose : Risk.sDoseOf scenarioPayload = 0.7 := by
  simp only [Risk.sDoseOf, Risk.appliedDoseOf, Risk.recommendedDoseOf, scenarioPayload, jor]
  exact doseScore_one_one

lemma scenario_sDecay : Risk.sDecayOf scenarioPayload = 1 := by
  simp only [Risk.sDecayOf, Risk.daysOf, Risk.halfLifeOf, scenarioPayload, jor]
  exact decayScore_zero_five

lemma scenario_sPh : Risk.sPhOf scenarioPayload = 0.25 := rfl

lemma scenario_sMoist : Risk.sMoistOf scenarioPayload = 0.35 := rfl

lemma scenario_sWeather : Risk.sWeatherOf scenarioPayload = 0.35 := by
  simp only [Risk.sWeatherOf, scenarioPayload]
  exact weatherScore_empty

lemma scenario_ai : Risk.aiContributionOf scenarioPayload = 0 := rfl

lemma scenario_base : Risk.baseOf scenarioPayload = 0.571 := by
  simp only [Risk.baseOf, scenario_sDose, scenario_sDecay, scenario_sWeather,
    scenario_sMoist, scenario_sPh]
  rw [show 0.22 * (0.7:ℝ) + 0.28 * 1 + 0.18 * 0.35 + 0.14 * 0.35 + 0.10 * 0.25
        = 0.571 by norm_num]
  exact clampR_eq_self (by norm_num) (by norm_num)

lemma scenario_total : Risk.total01Of scenarioPayload = 0.571 := by
  simp only [Risk.total01Of, scenario_base, scenario_ai, add_zero]
  exact clampR_eq_self (by norm_num) (by norm_num)

lemma scenario_rp0 : Risk.rp0Of scenarioPayload = 57 := by
  simp only [Risk.rp0Of, scenario_total]
  exact pct_eval (by norm_num) (by norm_num) (by push_cast; norm_num) (by push_cast; norm_num)

lemma scenario_rp3 : Risk.rp3Of scenarioPayload = 57 := by
  have h1 : Risk.rp1Of scenarioPayload = 57 := by
    simp only [Risk.rp1Of]
    rw [if_neg (by rintro ⟨h20, -⟩; norm_num [Risk.dOf, Risk.daysOf, scenarioPayload, jor,
      Risk.clampNum] at h20)]
    exact scenario_rp0
  have h2 : Risk.rp2Of scenarioPayload = 57 := by
    simp only [Risk.rp2Of]
    rw [if_neg (by rintro ⟨hd, -⟩; rw [scenario_sDose] at hd; norm_num at hd)]
    exact h1
  simp only [Risk.rp3Of]
  rw [if_neg (by rintro ⟨hs, -⟩; norm_num [Risk.aiStressOf, scenarioPayload, jor,
    Risk.clampNum] at hs)]
  exact h2

lemma pct_nonneg (x : ℝ) : 0 ≤ Risk.pct x := by
  simp only [Risk.pct, Risk.jround]
  apply Int.le_floor.mpr
  have h := le_clampR x (show (0:ℝ) ≤ 1 by norm_num)
  push_cast
  linarith

lemma pct_le_100 (x : ℝ) : Risk.pct x ≤ 100 := by
  simp only [Risk.pct, Risk.jround]
  have h := clampR_le_hi x 0 1
  have h2 : ⌊clampR x 0 1 * 100 + 1 / 2⌋ < 101 := Int.floor_lt.mpr (by push_cast; linarith)
  omega

lemma rp0_nonneg (p : Risk.Payload) : 0 ≤ Risk.rp0Of p := pct_nonneg _

lemma rp1_le_rp0 (p : Risk.Payload) : Risk.rp1Of p ≤ Risk.rp0Of p := by
  simp only [Risk.rp1Of]
  split_ifs
  · exact min_le_left _ _
  · exact le_rfl

lemma rp1_nonneg (p : Risk.Payload) : 0 ≤ Risk.rp1Of p := by
  simp only [Risk.rp1Of]
  split_ifs
  · exact le_min (rp0_nonneg p) (by norm_num)
  · exact rp0_nonneg p

lemma rp2_le_rp1 (p : Risk.Payload) : Risk.rp2Of p ≤ Risk.rp1Of p := by
  simp only [Risk.rp2Of]
  split_ifs
  · exact min_le_left _ _
  · exact le_rfl

lemma rp2_nonneg (p : Risk.Payload) : 0 ≤ Risk.rp2Of p := by
  simp only [Risk.rp2Of]
  split_ifs
  · exact le_min (rp1_nonneg p) (by norm_num)
  · exact rp1_nonneg p

lemma rp3_le_rp2 (p : Risk.Payload) : Risk.rp3Of p ≤ Risk.rp2Of p := by
  simp only [Risk.rp3Of]
  split_ifs
  · exact max_le (by linarith) (rp2_nonneg p)
  · exact le_rfl

lemma rp3_nonneg (p : Risk.Payload) : 0 ≤ Risk.rp3Of p := by
  simp only [Risk.rp3Of]
  split_ifs
  · exact le_max_right _ _
  · exact rp2_nonneg p

lemma rp3_le_100 (p : Risk.Payload) : Risk.rp3Of p ≤ 100 :=
  le_trans (rp3_le_rp2 p) (le_trans (rp2_le_rp1 p) (le_trans (rp1_le_rp0 p) (pct_le_100 _)))

lemma lowdose_sDose (stress conf : Option JNum) :
    Risk.sDoseOf (lowDosePayload stress conf) = 0 := by
  simp only [Risk.sDoseOf, Risk.appliedDoseOf, Risk.recommendedDoseOf, lowDosePayload, jor]
  simp only [Risk.doseScore, Risk.clampNum]
  rw [if_neg (by norm_num : ¬ (10:ℝ) ≤ 0), if_pos (by norm_num : (0:ℝ) / 10 ≤ 0)]
  exact clampR_eq_self le_rfl (by norm_num)

lemma lowdose_sDecay (stress conf : Option JNum) :
    Risk.sDecayOf (lowDosePayload stress conf) < 0.2 := by
  simp only [Risk.sDecayOf, Risk.daysOf, Risk.halfLifeOf, lowDosePayload, jor]
  simp only [Risk.decayScore, Risk.clampNum]
  rw [if_neg (by norm_num : ¬ (3:ℝ) ≤ 0)]
  have hE : Real.exp (-(Real.log 2 * 60) / 3) = ((2:ℝ) ^ (20:ℕ))⁻¹ := by
    rw [show -(Real.log 2 * 60) / 3 = -((20:ℕ) * Real.log 2) by push_cast; ring]
    rw [Real.exp_neg, Real.exp_nat_mul, Real.exp_log (by norm_num : (0:ℝ) < 2)]
  have hpos : 0 < Real.exp (-(Real.log 2 * 60) / 3) := Real.exp_pos _
  have hsmall : Real.exp (-(Real.log 2 * 60) / 3) < 0.2 := by rw [hE]; norm_num
  calc clampR (Real.exp (-(Real.log 2 * 60) / 3)) 0 1
      ≤ max (Real.exp (-(Real.log 2 * 60) / 3)) 0 := min_le_left _ _
    _ = Real.exp (-(Real.log 2 * 60) / 3) := max_eq_left hpos.le
    _ < 0.2 := hsmall

lemma s3_sDose : Risk.sDoseOf sanity3Payload = 0.7 := by
  simp only [Risk.sDoseOf, Risk.appliedDoseOf, Risk.recommendedDoseOf, sanity3Payload, jor]
  exact doseScore_one_one

lemma s3_sDecay : Risk.sDecayOf sanity3Payload = 0.5 := by
  simp only [Risk.sDecayOf, Risk.daysOf, Risk.halfLifeOf, sanity3Payload, jor]
  simp only [Risk.decayScore, Risk.clampNum]
  rw [if_pos (by norm_num : (-1:ℝ) ≤ 0)]
  exact clampR_eq_self (by norm_num) (by norm_num)

lemma s3_sWeather : Risk.sWeatherOf sanity3Payload = 0.35 := by
  simp only [Risk.sWeatherOf, sanity3Payload]
  exact weatherScore_empty

lemma s3_ai : Risk.aiContributionOf sanity3Payload = 0.0675 := by
  show Risk.computeAiContribution (some (.num 90)) (some (.num 30)) (some (.num 0)) = 0.0675
  simp only [Risk.computeAiContribution]
  have hstress : Risk.stressOf (.num 90) = 0.9 := by
    show clampR ((90:ℝ) / 100) 0 1 = 0.9
    rw [show (90:ℝ) / 100 = 0.9 by norm_num]
    exact clampR_eq_self (by norm_num) (by norm_num)
  have hsoft : Risk.soften (Risk.stressOf (.num 90)) = 0.9 := by
    rw [hstress]
    simp only [Risk.soften]
    rw [if_neg (by norm_num : ¬ (0.9:ℝ) < 0.4), if_neg (by norm_num : ¬ (0.9:ℝ) < 0.7)]
    norm_num
  have hconf : Risk.confFactor (some (.num 30)) = 0.3 := by
    show clampR ((30:ℝ) / 100) 0.3 1 = 0.3
    rw [show (30:ℝ) / 100 = 0.3 by norm_num]
    exact clampR_eq_self le_rfl (by norm_num)
  have htf : Risk.timeFactorOf (some (.num 0)) = 1 := by
    simp only [Risk.timeFactorOf, Risk.clampNum]
    rw [if_neg (by norm_num : ¬ (14:ℝ) ≤ 0), if_neg (by norm_num : ¬ (7:ℝ) ≤ 0)]
  rw [hsoft, hconf, htf]
  rw [show (0.9:ℝ) * 0.3 * 1 * 0.25 = 0.0675 by norm_num]
  exact min_eq_left (by norm_num)

lemma s3_base : Risk.baseOf sanity3Payload = 0.431 := by
  simp only [Risk.baseOf, s3_sDose, s3_sDecay, s3_sWeather]
  rw [show Risk.sMoistOf sanity3Payload = 0.35 from rfl,
    show Risk.sPhOf sanity3Payload = 0.25 from rfl]
  rw [show 0.22 * (0.7:ℝ) + 0.28 * 0.5 + 0.18 * 0.35 + 0.14 * 0.35 + 0.10 * 0.25
        = 0.431 by norm_num]
  exact clampR_eq_self (by norm_num) (by norm_num)

lemma s3_total : Risk.total01Of sanity3Payload = 0.4985 := by
  simp only [Risk.total01Of, s3_base, s3_ai]
  rw [show (0.431:ℝ) + 0.0675 = 0.4985 by norm_num]
  exact clampR_eq_self (by norm_num) (by norm_num)

lemma s3_rp0 : Risk.rp0Of sanity3Payload = 50 := by
  simp only [Risk.rp0Of, s3_total]
  exact pct_eval (by norm_num) (by norm_num) (by push_cast; norm_num) (by push_cast; norm_num)

lemma s3_rp3 : Risk.rp3Of sanity3Payload = 40 := by
  have h1 : Risk.rp1Of sanity3Payload = 50 := by
    simp only [Risk.rp1Of]
    rw [if_neg (by rintro ⟨h20, -⟩; norm_num [Risk.dOf, Risk.daysOf, sanity3Payload, jor,
      Risk.clampNum] at h20)]
    exact s3_rp0
  have h2 : Risk.rp2Of sanity3Payload = 50 := by
    simp only [Risk.rp2Of]
    rw [if_neg (by rintro ⟨hd, -⟩; rw [s3_sDose] at hd; norm_num at hd)]
    exact h1
  simp only [Risk.rp3Of]
  rw [if_pos ⟨by norm_num [Risk.aiStressOf, sanity3Payload, jor, Risk.clampNum],
    by norm_num [Risk.aiConfidenceOf, sanity3Payload, jor, Risk.clampNum]⟩]
  rw [h2]
  rfl

lemma clamp01_eq_self {x : ℝ} (h0 : 0 ≤ x) (h1 : x ≤ 1) : Server.clamp01 x = x := by
  unfold Server.clamp01
  rw [max_eq_right h0, min_eq_right h1]

lemma jround_eval {x : ℝ} {n : ℤ} (h2 : (n : ℝ) ≤ x + 1 / 2) (h3 : x + 1 / 2 < n + 1) :
    Risk.jround x = n := by
  simp only [Risk.jround]
  exact Int.floor_eq_iff.mpr ⟨h2, by push_cast; linarith⟩

lemma scan1_resp :
    Server.scanHandler (some scanFile1) (some scanInputs1)
      = Server.ScanResponse.ok (Server.computeRisk scanInputs1)
          { crop := none
            pesticide := none
            recommendedDose := some (.num 1)
            fileMimetype := "image/png"
            fileSize := 2048 } := by
  have hsw : jsStartsWith ("image/png") ("image/") = true := by decide
  simp only [Server.scanHandler, scanFile1, scanInputs1, Server.toNumber, hsw]
  rw [if_neg (by simp), if_pos (by norm_num : (0:ℝ) < 1)]

lemma scan1_server_rp : (Server.computeRisk scanInputs1).riskPercent = some 35 := by
  simp only [Server.computeRisk, scanInputs1, Server.toNumber, Option.getD, Option.isSome]
  rw [show ((1:ℝ) - 1) / 3 + 0.4 = 0.4 by norm_num]
  rw [clamp01_eq_self (by norm_num : (0:ℝ) ≤ 0.4) (by norm_num : (0.4:ℝ) ≤ 1)]
  rw [if_neg (by simp : ¬ (false = true ∨ false = true ∨ false = true))]
  rw [show 0.22 * (0.4:ℝ) + 0.24 * 0.6 + 0.14 * 0.2 + 0.10 * 0.2 + 0.10 * 0.2
        + 0.10 * 0.2 + 0.10 * 0.25 = 0.345 by norm_num]
  rw [clamp01_eq_self (by norm_num : (0:ℝ) ≤ 0.345) (by norm_num : (0.345:ℝ) ≤ 1)]
  rw [show (0.345:ℝ) * 100 = 34.5 by norm_num]
  rw [show Risk.jround (34.5:ℝ) = 35 from jround_eval (by norm_num) (by norm_num)]

lemma scan1_sDose : Risk.sDoseOf scanPayload1 = 0 := by
  simp only [Risk.sDoseOf, Risk.appliedDoseOf, Risk.recommendedDoseOf, scanPayload1, jor]
  simp only [Risk.doseScore, Risk.clampNum]
  rw [if_neg (by norm_num : ¬ (1:ℝ) ≤ 0), if_pos (by norm_num : (0:ℝ) / 1 ≤ 0)]
  exact clampR_eq_self le_rfl (by norm_num)

lemma scan1_sDecay : Risk.sDecayOf scanPayload1 = 0.5 := by
  simp only [Risk.sDecayOf, Risk.daysOf, Risk.halfLifeOf, scanPayload1, jor]
  simp only [Risk.decayScore, Risk.clampNum]
  rw [if_pos le_rfl]
  exact clampR_eq_self (by norm_num) (by norm_num)

lemma scan1_engine_rp : (Risk.calculateRisk scanPayload1).riskPercent = 28 := by
  show Risk.rp3Of scanPayload1 = 28
  have hbase : Risk.baseOf scanPayload1 = 0.277 := by
    simp only [Risk.baseOf, scan1_sDose, scan1_sDecay]
    rw [show Risk.sWeatherOf scanPayload1 = Risk.weatherScore {} from rfl, weatherScore_empty]
    rw [show Risk.sMoistOf scanPayload1 = 0.35 from rfl,
      show Risk.sPhOf scanPayload1 = 0.25 from rfl]
    rw [show 0.22 * (0:ℝ) + 0.28 * 0.5 + 0.18 * 0.35 + 0.14 * 0.35 + 0.10 * 0.25
          = 0.277 by norm_num]
    exact clampR_eq_self (by norm_num) (by norm_num)
  have htot : Risk.total01Of scanPayload1 = 0.277 := by
    simp only [Risk.total01Of, hbase]
    rw [show Risk.aiContributionOf scanPayload1 = 0 from rfl, add_zero]
    exact clampR_eq_self (by norm_num) (by norm_num)
  have hrp0 : Risk.rp0Of scanPayload1 = 28 := by
    simp only [Risk.rp0Of, htot]
    exact pct_eval (by norm_num) (by norm_num) (by push_cast; norm_num) (by push_cast; norm_num)
  have h1 : Risk.rp1Of scanPayload1 = 28 := by
    simp only [Risk.rp1Of]
    rw [if_neg (by rintro ⟨h20, -⟩; norm_num [Risk.dOf, Risk.daysOf, scanPayload1, jor,
      Risk.clampNum] at h20)]
    exact hrp0
  have h2 : Risk.rp2Of scanPayload1 = 28 := by
    simp only [Risk.rp2Of]
    rw [if_neg (by rintro ⟨-, hd⟩; rw [scan1_sDecay] at hd; norm_num at hd)]
    exact h1
  simp only [Risk.rp3Of]
  rw [if_neg (by rintro ⟨hs, -⟩; norm_num [Risk.aiStressOf, scanPayload1, jor,
    Risk.clampNum] at hs)]
  exact h2

lemma clampQ_eq_self {n a b : ℚ} (h1 : a ≤ n) (h2 : n ≤ b) : Vision.clampQ n a b = n := by
  unfold Vision.clampQ
  rw [max_eq_right h1, min_eq_right h2]

lemma jroundQ_eval {x : ℚ} {n : ℤ} (h2 : (n : ℚ) ≤ x + 1 / 2) (h3 : x + 1 / 2 < n + 1) :
    Vision.jroundQ x = n := by
  simp only [Vision.jroundQ]
  exact Int.floor_eq_iff.mpr ⟨h2, by push_cast; linarith⟩

lemma isEmpty_false_of_mem {α : Type} {a : α} {l : List α} (h : a ∈ l) :
    l.isEmpty = false := by
  cases l
  · cases h
  · rfl

lemma hsv_gray (g : ℚ) : Vision.rgbToHsv g g g = ⟨0, 0, g / 255⟩ := by
  unfold Vision.rgbToHsv
  simp only [max_self, min_self, sub_self, ne_eq, not_true_eq_false, if_false]
  rcases eq_or_ne (g / 255) 0 with h | h
  · rw [if_pos h, h]
  · rw [if_neg h, zero_div]

lemma isLeafLike_gray (g : ℚ) : Vision.isLeafLike ⟨g, g, g⟩ = false := by
  unfold Vision.isLeafLike
  rw [hsv_gray]
  simp only [decide_eq_false (by norm_num : ¬ ((0.18 : ℚ) < (0 : ℚ))), Bool.and_false,
    Bool.false_and]

lemma isGreen_gray (g : ℚ) : Vision.isGreen ⟨g, g, g⟩ = false := by
  unfold Vision.isGreen
  rw [hsv_gray]
  simp only [decide_eq_false (by norm_num : ¬ ((0.22 : ℚ) < (0 : ℚ))), Bool.and_false,
    Bool.false_and]

lemma isYellow_gray (g : ℚ) : Vision.isYellow ⟨g, g, g⟩ = false := by
  unfold Vision.isYellow
  rw [hsv_gray]
  simp only [decide_eq_false (by norm_num : ¬ ((0.18 : ℚ) < (0 : ℚ))), Bool.and_false,
    Bool.false_and]

lemma isBrown_gray (g : ℚ) : Vision.isBrown ⟨g, g, g⟩ = false := by
  unfold Vision.isBrown
  rw [hsv_gray]
  simp only [decide_eq_false (by norm_num : ¬ ((0.16 : ℚ) < (0 : ℚ))), Bool.and_false,
    Bool.false_and]

lemma countIf_zero {w h : ℕ} {p : ℕ → ℕ → Bool} (hp : ∀ x y, p x y = false) :
    Vision.countIf w h p = 0 := by
  unfold Vision.countIf
  apply Finset.sum_eq_zero
  intro y _
  apply Finset.sum_eq_zero
  intro x _
  rw [hp]
  rfl

lemma grayAt_gray {img : Vision.Img} {g : ℚ} (himg : ∀ x y, img.px x y = ⟨g, g, g⟩)
    (x y : ℕ) : Vision.grayAt img x y = g := by
  unfold Vision.grayAt
  rw [himg x y]
  show (0.2126 : ℚ) * g + 0.7152 * g + 0.0722 * g = g
  ring_nf

lemma lapVariance_gray {img : Vision.Img} {g : ℚ} (himg : ∀ x y, img.px x y = ⟨g, g, g⟩) :
    Vision.laplacianVariance img = 0 := by
  have hlap : ∀ x y, Vision.lapAt img x y = 0 := by
    intro x y
    unfold Vision.lapAt
    simp only [grayAt_gray himg]
    ring
  have hsum : Vision.lapSum img = 0 := by
    unfold Vision.lapSum
    apply Finset.sum_eq_zero
    intro y _
    apply Finset.sum_eq_zero
    intro x _
    exact hlap x y
  have hsq : Vision.lapSqSum img = 0 := by
    unfold Vision.lapSqSum
    apply Finset.sum_eq_zero
    intro y _
    apply Finset.sum_eq_zero
    intro x _
    rw [hlap x y]
    ring
  unfold Vision.laplacianVariance
  rw [hsum, hsq]
  simp [zero_div]

/-! Claim theorems. -/

/-- Claim C6: on the payload `{appliedDose: 1, recommendedDose: 1,
daysSinceSpray: 0, halfLifeDays: 5}` with no weather and no ai group, the
Scoring Engine yields decayScore 1, doseScore 0.70, moistureScore 0.35,
phScore 0.25, weatherScore 0.35, base 0.571, riskPercent 57, level Medium. -/
theorem c6_scenario :
    (Risk.calculateRisk scenarioPayload).breakdown.decayScore = 1
    ∧ (Risk.calculateRisk scenarioPayload).breakdown.doseScore = 0.70
    ∧ (Risk.calculateRisk scenarioPayload).breakdown.moistureScore = 0.35
    ∧ (Risk.calculateRisk scenarioPayload).breakdown.phScore = 0.25
    ∧ (Risk.calculateRisk scenarioPayload).breakdown.weatherScore = 0.35
    ∧ (Risk.calculateRisk scenarioPayload).breakdown.baseScore = 0.571
    ∧ (Risk.calculateRisk scenarioPayload).riskPercent = 57
    ∧ (Risk.calculateRisk scenarioPayload).level = "Medium" := by
  refine ⟨scenario_sDecay, ?_, scenario_sMoist, scenario_sPh,
    scenario_sWeather, scenario_base, scenario_rp3, ?_⟩
  · show Risk.sDoseOf scenarioPayload = 0.70
    rw [scenario_sDose]
    norm_num
  show Risk.labelFromPercent (Risk.rp3Of scenarioPayload) = "Medium"
  rw [scenario_rp3]
  rfl

/-- Claim C4: `decayScore` equals `exp(−ln2·days/halfLife)` clamped to `[0,1]`
for every `halfLife > 0` and `days ≥ 0`, and equals the fixed value 0.5
whenever `halfLife ≤ 0`; in particular `decayScore(0, H) = 1` and
`decayScore(H, H) = 0.5` for every `H > 0`. -/
theorem c4_decayScore (d H : ℝ) (hd : 0 ≤ d) :
    (0 < H → Risk.decayScore (some (.num d)) (some (.num H))
      = clampR (Real.exp (-(Real.log 2 * d) / H)) 0 1)
    ∧ (H ≤ 0 → Risk.decayScore (some (.num d)) (some (.num H)) = 0.5)
    ∧ (0 < H → Risk.decayScore (some (.num 0)) (some (.num H)) = 1)
    ∧ (0 < H → Risk.decayScore (some (.num H)) (some (.num H)) = 0.5) := by
  refine ⟨fun hH => ?_, fun hH => ?_, fun hH => ?_, fun hH => ?_⟩
  · simp only [Risk.decayScore, Risk.clampNum]
    rw [if_neg (not_le.mpr hH)]
  · simp only [Risk.decayScore, Risk.clampNum]
    rw [if_pos hH]
    norm_num [clampR]
  · simp only [Risk.decayScore, Risk.clampNum]
    rw [if_neg (not_le.mpr hH)]
    norm_num [Real.exp_zero, clampR]
  · simp only [Risk.decayScore, Risk.clampNum]
    rw [if_neg (not_le.mpr hH)]
    have hne : H ≠ 0 := ne_of_gt hH
    have : -(Real.log 2 * H) / H = -Real.log 2 := by field_simp
    rw [this, Real.exp_neg, Real.exp_log (by norm_num : (0:ℝ) < 2)]
    norm_num [clampR]

/-- Claim C4 witness: at `days = 0`, `halfLife = 5` the decay score is 1. -/
theorem c4_decayScore_witness :
    Risk.decayScore (some (.num 0)) (some (.num 5)) = 1 :=
  (c4_decayScore 0 5 le_rfl).2.2.1 (by norm_num)

/-- Claim C3: for every stressScore in `[0,100]` and confidence in `[0,100]`,
the AI contribution lies in `[0, 0.25]`; it is 0 when stressScore is absent;
otherwise it equals `min(stress_softened·conf·timeFactor·0.25, 0.25)` with
`conf = clamp(confidence/100, [0.3,1])` and the documented time and softening
factors. -/
theorem c3_aiContribution (s c : ℝ) (hs : 0 ≤ s ∧ s ≤ 100) (hc : 0 ≤ c ∧ c ≤ 100)
    (days : Option JNum) :
    (0 ≤ Risk.computeAiContribution (some (.num s)) (some (.num c)) days
      ∧ Risk.computeAiContribution (some (.num s)) (some (.num c)) days ≤ 0.25)
    ∧ (∀ conf d2, Risk.computeAiContribution none conf d2 = 0)
    ∧ Risk.computeAiContribution (some (.num s)) (some (.num c)) days
        = min (Risk.soften (clampR (s / 100) 0 1) * clampR (c / 100) 0.3 1
               * Risk.timeFactorOf days * 0.25) 0.25 := by
  have hstress := stressOf_mem (.num s)
  have hsoft := soften_mem hstress.1 hstress.2
  have hconf := confFactor_mem (some (.num c))
  have htf := timeFactorOf_mem days
  refine ⟨⟨?_, ?_⟩, fun conf d2 => rfl, ?_⟩
  · apply le_min _ (by norm_num)
    have hconf0 : (0:ℝ) ≤ Risk.confFactor (some (.num c)) :=
      le_trans (by norm_num) hconf.1
    exact mul_nonneg (mul_nonneg (mul_nonneg hsoft.1 hconf0) htf.1) (by norm_num)
  · exact min_le_right _ _
  · rfl

/-- Claim C3 witness: at stressScore 50, confidence 80, 3 days since spray the
contribution is within `[0, 0.25]`. -/
theorem c3_aiContribution_witness :
    0 ≤ Risk.computeAiContribution (some (.num 50)) (some (.num 80)) (some (.num 3))
    ∧ Risk.computeAiContribution (some (.num 50)) (some (.num 80)) (some (.num 3)) ≤ 0.25 :=
  (c3_aiContribution 50 80 (by norm_num) (by norm_num) (some (.num 3))).1

/-- Claim C9: when `ai.confidence` is absent the engine substitutes the default
50, making the confidence factor 0.5; and for every confidence value (missing,
finite or NaN) the effective factor lies in `[0.3, 1]`. -/
theorem c9_confidence_default :
    (∀ p : Risk.Payload, p.ai.confidence = none →
      Risk.aiConfidenceOf p = some (.num 50)
      ∧ Risk.confFactor (Risk.aiConfidenceOf p) = 0.5)
    ∧ (∀ c : Option JNum, 0.3 ≤ Risk.confFactor c ∧ Risk.confFactor c ≤ 1) := by
  refine ⟨fun p h => ?_, confFactor_mem⟩
  have h50 : Risk.aiConfidenceOf p = some (.num 50) := by
    simp [Risk.aiConfidenceOf, jor, h]
  refine ⟨h50, ?_⟩
  rw [h50]
  show clampR (50 / 100) 0.3 1 = 0.5
  rw [show (50 : ℝ) / 100 = 0.5 by norm_num]
  exact clampR_eq_self (by norm_num) (by norm_num)

/-- Claim C9 witness: the empty payload has no `ai.confidence`, so the factor
is exactly 0.5, and a NaN confidence is clamped to the floor 0.3. -/
theorem c9_confidence_default_witness :
    Risk.confFactor (Risk.aiConfidenceOf {}) = 0.5
    ∧ 0.3 ≤ Risk.confFactor (some .nan) :=
  ⟨(c9_confidence_default.1 {} rfl).2, (c9_confidence_default.2 (some .nan)).1⟩

/-- Claim C7: for every input file whose image decode fails, the Analyzer does
not raise: it returns `ok = false`, a single generic reason, an empty symptom
list and the neutral default `imageStress = 50`, never 0. -/
theorem c7_decode_failure (file : Vision.LeafFile) (h : file.decoded = none) :
    Vision.analyzeLeafPhoto file =
      { ok := false
        reasons := ["Could not read image. Try another photo."]
        metrics := none
        imageStress := 50
        symptoms := [] }
    ∧ (Vision.analyzeLeafPhoto file).reasons.length = 1
    ∧ (Vision.analyzeLeafPhoto file).imageStress = 50
    ∧ (Vision.analyzeLeafPhoto file).imageStress ≠ 0 := by
  have he : Vision.analyzeLeafPhoto file =
      { ok := false
        reasons := ["Could not read image. Try another photo."]
        metrics := none
        imageStress := 50
        symptoms := [] } := by
    simp only [Vision.analyzeLeafPhoto, h]
  exact ⟨he, by rw [he]; rfl, by rw [he], by rw [he]; decide⟩

/-- Claim C7 witness: a concrete non-decodable file gets the fail-safe answer. -/
theorem c7_decode_failure_witness :
    Vision.analyzeLeafPhoto badFile =
      { ok := false
        reasons := ["Could not read image. Try another photo."]
        metrics := none
        imageStress := 50
        symptoms := [] } :=
  (c7_decode_failure badFile rfl).1

/-- Claim C8: for every uniform gray input raster (all pixels `(g,g,g)`, which
covers the mid-gray synthetic image), the Analyzer computes detail variance 0
and leaf coverage 0, rejects with the low-detail and no-leaf reasons, and its
imageStress is exactly 8 (only the flat +0.08 low-detail penalty survives the
clamp of the raw color score). -/
theorem c8_uniform_gray (file : Vision.LeafFile) (img : Vision.Img) (g : ℚ)
    (h1 : file.decoded = some img) (h2 : ∀ x y, img.px x y = ⟨g, g, g⟩) :
    (Vision.analyzeLeafPhoto file).metrics.map Vision.Metrics.detail = some 0
    ∧ (Vision.analyzeLeafPhoto file).metrics.map Vision.Metrics.leafCoverage = some 0
    ∧ (Vision.analyzeLeafPhoto file).ok = false
    ∧ "Photo looks too blurry. Hold steady and use better lighting."
        ∈ (Vision.analyzeLeafPhoto file).reasons
    ∧ "Leaf not clearly visible. Move closer and fill the frame with the leaf."
        ∈ (Vision.analyzeLeafPhoto file).reasons
    ∧ (Vision.analyzeLeafPhoto file).imageStress = 8
    ∧ 0 ≤ (Vision.analyzeLeafPhoto file).imageStress
    ∧ (Vision.analyzeLeafPhoto file).imageStress ≤ 8 := by
  have hleaf : Vision.countIf img.w img.h (fun x y => Vision.isLeafLike (img.px x y)) = 0 :=
    countIf_zero fun x y => by rw [h2 x y]; exact isLeafLike_gray g
  have hgreen : Vision.countIf img.w img.h (fun x y => Vision.isGreen (img.px x y)) = 0 :=
    countIf_zero fun x y => by rw [h2 x y]; exact isGreen_gray g
  have hyellow : Vision.countIf img.w img.h (fun x y => Vision.isYellow (img.px x y)) = 0 :=
    countIf_zero fun x y => by rw [h2 x y]; exact isYellow_gray g
  have hbrown : Vision.countIf img.w img.h (fun x y => Vision.isBrown (img.px x y)) = 0 :=
    countIf_zero fun x y => by rw [h2 x y]; exact isBrown_gray g
  have hds : Vision.countIf img.w img.h
      (fun x y => Vision.isLeafLike (img.px x y) && Vision.isDark (img.px x y)) = 0 :=
    countIf_zero fun x y => by rw [h2 x y, isLeafLike_gray, Bool.false_and]
  have heb : Vision.countIf img.w img.h
      (fun x y => Vision.isEdge img.w img.h (Vision.edgeBandOf img.w img.h) x y
        && Vision.isBrown (img.px x y)) = 0 :=
    countIf_zero fun x y => by rw [h2 x y, isBrown_gray, Bool.and_false]
  have hdet : Vision.laplacianVariance img = 0 := lapVariance_gray h2
  have ht1 : ((0:ℚ) < 0.18) = True := eq_true (by norm_num)
  have ht2 : ((0:ℚ) < 35) = True := eq_true (by norm_num)
  have ht3 : ((0:ℚ) < 35 * 1.6) = True := eq_true (by norm_num)
  have hc0 : Vision.clampQ (1.8 * 0 + 2.2 * 0 + 1.6 * 0 + 1.8 * 0 - 0.8 * 0) 0 1 = 0 := by
    rw [show (1.8:ℚ) * 0 + 2.2 * 0 + 1.6 * 0 + 1.8 * 0 - 0.8 * 0 = 0 by norm_num]
    exact clampQ_eq_self le_rfl (by norm_num)
  have hc8 : Vision.clampQ (0 + 0.08) 0 1 = 0.08 := by
    rw [zero_add]
    exact clampQ_eq_self (by norm_num) (by norm_num)
  have hjr : Vision.jroundQ ((0.08:ℚ) * 100) = 8 := by
    rw [show (0.08:ℚ) * 100 = 8 by norm_num]
    exact jroundQ_eval (by norm_num) (by norm_num)
  have hmemB : "Photo looks too blurry. Hold steady and use better lighting."
      ∈ (Vision.analyzeLeafPhoto file).reasons := by
    simp only [Vision.analyzeLeafPhoto, h1, hleaf, hgreen, hyellow, hbrown, hds, heb, hdet,
      Nat.cast_zero, zero_div, ht1, ht2, ht3, if_true, hc0, hc8, hjr]
    simp [List.mem_append]
  have hmemN : "Leaf not clearly visible. Move closer and fill the frame with the leaf."
      ∈ (Vision.analyzeLeafPhoto file).reasons := by
    simp only [Vision.analyzeLeafPhoto, h1, hleaf, hgreen, hyellow, hbrown, hds, heb, hdet,
      Nat.cast_zero, zero_div, ht1, ht2, ht3, if_true, hc0, hc8, hjr]
    simp [List.mem_append]
  have hok : (Vision.analyzeLeafPhoto file).ok = false := by
    have hoe : (Vision.analyzeLeafPhoto file).ok
        = (Vision.analyzeLeafPhoto file).reasons.isEmpty := by
      simp only [Vision.analyzeLeafPhoto, h1]
    rw [hoe]
    exact isEmpty_false_of_mem hmemB
  have hstress : (Vision.analyzeLeafPhoto file).imageStress = 8 := by
    simp only [Vision.analyzeLeafPhoto, h1, hleaf, hgreen, hyellow, hbrown, hds, heb, hdet,
      Nat.cast_zero, zero_div, ht1, ht2, ht3, if_true, hc0, hc8, hjr]
  have hdetail : (Vision.analyzeLeafPhoto file).metrics.map Vision.Metrics.detail = some 0 := by
    simp only [Vision.analyzeLeafPhoto, h1, hleaf, hgreen, hyellow, hbrown, hds, heb, hdet,
      Nat.cast_zero, zero_div, ht1, ht2, ht3, if_true, hc0, hc8, hjr]
    rfl
  have hcov : (Vision.analyzeLeafPhoto file).metrics.map Vision.Metrics.leafCoverage
      = some 0 := by
    simp only [Vision.analyzeLeafPhoto, h1, hleaf, hgreen, hyellow, hbrown, hds, heb, hdet,
      Nat.cast_zero, zero_div, ht1, ht2, ht3, if_true, hc0, hc8, hjr]
    rfl
  exact ⟨hdetail, hcov, hok, hmemB, hmemN, hstress, by rw [hstress]; norm_num,
    hstress ▸ le_rfl⟩

/-- Claim C8 witness: the 2×2 uniform mid-gray (128) raster is rejected with
detail 0, coverage 0 and imageStress 8. -/
theorem c8_uniform_gray_witness :
    (Vision.analyzeLeafPhoto grayFile).metrics.map Vision.Metrics.detail = some 0
    ∧ (Vision.analyzeLeafPhoto grayFile).metrics.map Vision.Metrics.leafCoverage = some 0
    ∧ (Vision.analyzeLeafPhoto grayFile).ok = false
    ∧ "Photo looks too blurry. Hold steady and use better lighting."
        ∈ (Vision.analyzeLeafPhoto grayFile).reasons
    ∧ "Leaf not clearly visible. Move closer and fill the frame with the leaf."
        ∈ (Vision.analyzeLeafPhoto grayFile).reasons
    ∧ (Vision.analyzeLeafPhoto grayFile).imageStress = 8
    ∧ 0 ≤ (Vision.analyzeLeafPhoto grayFile).imageStress
    ∧ (Vision.analyzeLeafPhoto grayFile).imageStress ≤ 8 :=
  c8_uniform_gray grayFile grayImg 128 rfl (fun _ _ => rfl)

/-- Claim C1 counterexample: on the valid payload `{recommendedDose: 1}` the
endpoint responds with riskPercent 35 (from the placeholder `computeRisk`),
while the Risk Scoring Engine `calculateRisk` yields 28 on the same payload —
the endpoint does not relay the Scoring Engine's output. -/
theorem c1_relay_cex :
    Server.respRiskPercent (Server.scanHandler (some scanFile1) (some scanInputs1))
      = some (some 35)
    ∧ (Risk.calculateRisk scanPayload1).riskPercent = 28
    ∧ Server.respRiskPercent (Server.scanHandler (some scanFile1) (some scanInputs1))
        ≠ some (some ((Risk.calculateRisk scanPayload1).riskPercent)) := by
  have h1 : Server.respRiskPercent (Server.scanHandler (some scanFile1) (some scanInputs1))
      = some (some 35) := by
    rw [scan1_resp]
    simp only [Server.respRiskPercent]
    exact congrArg some scan1_server_rp
  refine ⟨h1, scan1_engine_rp, ?_⟩
  rw [h1, scan1_engine_rp]
  decide

/-- Claim C1 (amended): for every payload whose recommendedDose is a number
greater than 0 (and a valid image upload), the endpoint invokes the
placeholder scorer `computeRisk` of `server/index.js` — not the shared engine
`calculateRisk` — and relays that scorer's riskPercent, level, breakdown and
tips verbatim in the response body, alongside the `meta` echo. -/
theorem c1_relays_placeholder (f : Server.UploadFile) (ins : Server.SInputs) (rd : ℝ)
    (hm : jsStartsWith f.mimetype ("image/") = true)
    (hrd : Server.toNumber ins.recommendedDose = some rd) (hpos : 0 < rd) :
    Server.scanHandler (some f) (some ins)
      = Server.ScanResponse.ok (Server.computeRisk ins)
          { crop := ins.crop
            pesticide := ins.pesticide
            recommendedDose := ins.recommendedDose
            fileMimetype := f.mimetype
            fileSize := f.size } := by
  simp only [Server.scanHandler, hm, hrd]
  rw [if_neg (by simp), if_pos hpos]

/-- Claim C1 witness: the amended relay equality at the concrete valid scan
request `{recommendedDose: 1}` with an image/png upload. -/
theorem c1_relays_placeholder_witness :
    Server.scanHandler (some scanFile1) (some scanInputs1)
      = Server.ScanResponse.ok (Server.computeRisk scanInputs1)
          { crop := none
            pesticide := none
            recommendedDose := some (.num 1)
            fileMimetype := "image/png"
            fileSize := 2048 } :=
  c1_relays_placeholder scanFile1 scanInputs1 1 (by decide) rfl (by norm_num)

/-- Claim C5: whenever `doseScore < 0.2` and `decayScore < 0.2` the final
riskPercent is at most 45 (sanity rule 2, and rule 3 can only lower further);
in particular, on `{appliedDose: 0, recommendedDose: 10, daysSinceSpray: 60,
halfLifeDays: 3}` the percent never exceeds 45 for any AI stress/confidence. -/
theorem c5_low_dose_cap :
    (∀ p : Risk.Payload,
      (Risk.calculateRisk p).breakdown.doseScore < 0.2 →
      (Risk.calculateRisk p).breakdown.decayScore < 0.2 →
      (Risk.calculateRisk p).riskPercent ≤ 45)
    ∧ (∀ stress conf : Option JNum,
      (Risk.calculateRisk (lowDosePayload stress conf)).riskPercent ≤ 45) := by
  have hcap : ∀ p : Risk.Payload,
      Risk.sDoseOf p < 0.2 → Risk.sDecayOf p < 0.2 → Risk.rp3Of p ≤ 45 := by
    intro p h1 h2
    have h45 : Risk.rp2Of p ≤ 45 := by
      simp only [Risk.rp2Of]
      rw [if_pos ⟨h1, h2⟩]
      exact min_le_right _ _
    exact le_trans (rp3_le_rp2 p) h45
  refine ⟨fun p h1 h2 => hcap p h1 h2, fun stress conf => ?_⟩
  apply hcap
  · rw [lowdose_sDose]
    norm_num
  · exact lowdose_sDecay stress conf

/-- Claim C5 witness: with AI stress 90 at confidence 100, the low-dose
strong-decay payload still reports at most 45. -/
theorem c5_low_dose_cap_witness :
    (Risk.calculateRisk (lowDosePayload (some (.num 90)) (some (.num 100)))).riskPercent ≤ 45 :=
  c5_low_dose_cap.1 (lowDosePayload (some (.num 90)) (some (.num 100)))
    (by show Risk.sDoseOf _ < 0.2
        rw [lowdose_sDose]
        norm_num)
    (lowdose_sDecay (some (.num 90)) (some (.num 100)))

/-- Claim C10: `breakdown.totalScore` equals `riskPercent/100` computed after
the sanity rules; whenever a sanity rule lowers the percent below the raw
`round(100·clamp(base+ai))`, the totalScore is strictly less than
`clamp(baseScore + aiContribution, [0,1])`; and totalScore lies in `[0,1]`. -/
theorem c10_totalScore (p : Risk.Payload) :
    (Risk.calculateRisk p).breakdown.totalScore
      = ((Risk.calculateRisk p).riskPercent : ℝ) / 100
    ∧ 0 ≤ (Risk.calculateRisk p).breakdown.totalScore
    ∧ (Risk.calculateRisk p).breakdown.totalScore ≤ 1
    ∧ ((Risk.calculateRisk p).riskPercent
        < Risk.pct (clampR ((Risk.calculateRisk p).breakdown.baseScore
            + (Risk.calculateRisk p).breakdown.aiContribution) 0 1) →
      (Risk.calculateRisk p).breakdown.totalScore
        < clampR ((Risk.calculateRisk p).breakdown.baseScore
            + (Risk.calculateRisk p).breakdown.aiContribution) 0 1) := by
  have h0 := rp3_nonneg p
  have h100 := rp3_le_100 p
  have hdiv0 : (0:ℝ) ≤ (Risk.rp3Of p : ℝ) / 100 :=
    div_nonneg (by exact_mod_cast h0) (by norm_num)
  have hdiv1 : (Risk.rp3Of p : ℝ) / 100 ≤ 1 := by
    rw [div_le_one (by norm_num : (0:ℝ) < 100)]
    exact_mod_cast h100
  have heq : (Risk.calculateRisk p).breakdown.totalScore
      = ((Risk.calculateRisk p).riskPercent : ℝ) / 100 := by
    show clampR ((Risk.rp3Of p : ℝ) / 100) 0 1 = (Risk.rp3Of p : ℝ) / 100
    exact clampR_eq_self hdiv0 hdiv1
  refine ⟨heq, by rw [heq]; exact hdiv0, by rw [heq]; exact hdiv1, fun hlt => ?_⟩
  rw [heq]
  show (Risk.rp3Of p : ℝ) / 100 < Risk.total01Of p
  have hlt2 : Risk.rp3Of p < Risk.rp0Of p := hlt
  have htot0 : 0 ≤ Risk.total01Of p := le_clampR _ (by norm_num)
  have htot1 : Risk.total01Of p ≤ 1 := clampR_le_hi _ _ _
  have hfloor : (Risk.rp0Of p : ℝ) ≤ Risk.total01Of p * 100 + 1 / 2 := by
    show ((Risk.pct (Risk.total01Of p) : ℝ)) ≤ _
    simp only [Risk.pct, Risk.jround, clampR_eq_self htot0 htot1]
    exact Int.floor_le _
  have hle : Risk.rp3Of p ≤ Risk.rp0Of p - 1 := by omega
  have hle2 : (Risk.rp3Of p : ℝ) ≤ (Risk.rp0Of p : ℝ) - 1 := by exact_mod_cast hle
  linarith

/-- Claim C10 witness: on the sanity-rule-3 payload the raw percent 50 is
lowered to 40, and the reported totalScore 0.40 is strictly below the clamped
`base + aiContribution` 0.4985. -/
theorem c10_totalScore_witness :
    (Risk.calculateRisk sanity3Payload).breakdown.totalScore
      < clampR ((Risk.calculateRisk sanity3Payload).breakdown.baseScore
          + (Risk.calculateRisk sanity3Payload).breakdown.aiContribution) 0 1 :=
  (c10_totalScore sanity3Payload).2.2.2
    (by show Risk.rp3Of sanity3Payload < Risk.rp0Of sanity3Payload
        rw [s3_rp3, s3_rp0]
        norm_num)

/-- Claim C2 counterexample: at `appliedDose = 0`, `recommendedDose = 1` the
ratio is 0, which lies in `[0,1]`, yet `doseScore` returns 0 — not the claimed
`0.15 + 0.55·0 = 0.15` (the source's `ratio <= 0` branch wins). -/
theorem c2_doseScore_cex :
    Risk.doseScore (some (.num 0)) (some (.num 1)) = 0
    ∧ Risk.doseScore (some (.num 0)) (some (.num 1)) ≠ 0.15 + 0.55 * ((0 : ℝ) / 1) := by
  have h0 : Risk.doseScore (some (.num 0)) (some (.num 1)) = 0 := by
    simp only [Risk.doseScore, Risk.clampNum]
    norm_num [clampR]
  exact ⟨h0, by rw [h0]; norm_num⟩

/-- Claim C2 (amended): `doseScore` returns 0 whenever `recommendedDose ≤ 0`
and also whenever the ratio is ≤ 0 (in particular at `appliedDose = 0`); for
ratio in `(0,1]` it returns `0.15 + 0.55·ratio` (so 0.70 at
`appliedDose = recommendedDose`), for ratio > 1 it returns
`0.70 + 0.30·tanh(1.2·(ratio−1))`, and it stays strictly below 1 for every
finite input. -/
theorem c2_doseScore_amended (applied recd : ℝ) :
    (recd ≤ 0 → Risk.doseScore (some (.num applied)) (some (.num recd)) = 0)
    ∧ (0 < recd → applied / recd ≤ 0 →
        Risk.doseScore (some (.num applied)) (some (.num recd)) = 0)
    ∧ (0 < recd → 0 < applied / recd → applied / recd ≤ 1 →
        Risk.doseScore (some (.num applied)) (some (.num recd))
          = 0.15 + 0.55 * (applied / recd))
    ∧ (0 < recd → 1 < applied / recd →
        Risk.doseScore (some (.num applied)) (some (.num recd))
          = 0.70 + 0.30 * Real.tanh ((applied / recd - 1) * 1.2))
    ∧ Risk.doseScore (some (.num applied)) (some (.num recd)) < 1 := by
  have hb0 : ∀ h : recd ≤ 0, Risk.doseScore (some (.num applied)) (some (.num recd)) = 0 := by
    intro h
    simp only [Risk.doseScore, Risk.clampNum]
    rw [if_pos h]
  have hb1 : ∀ _ : 0 < recd, ∀ _ : applied / recd ≤ 0,
      Risk.doseScore (some (.num applied)) (some (.num recd)) = 0 := by
    intro h h2
    simp only [Risk.doseScore, Risk.clampNum]
    rw [if_neg (not_le.mpr h), if_pos h2]
    norm_num [clampR]
  have hb2 : ∀ _ : 0 < recd, ∀ _ : 0 < applied / recd, ∀ _ : applied / recd ≤ 1,
      Risk.doseScore (some (.num applied)) (some (.num recd))
        = 0.15 + 0.55 * (applied / recd) := by
    intro h h2 h3
    simp only [Risk.doseScore, Risk.clampNum]
    rw [if_neg (not_le.mpr h), if_neg (not_le.mpr h2), if_pos h3]
    exact clampR_eq_self (by linarith) (by linarith)
  have hb3 : ∀ _ : 0 < recd, ∀ _ : 1 < applied / recd,
      Risk.doseScore (some (.num applied)) (some (.num recd))
        = 0.70 + 0.30 * Real.tanh ((applied / recd - 1) * 1.2) := by
    intro h h2
    have ht0 : 0 ≤ Real.tanh ((applied / recd - 1) * 1.2) :=
      tanh_nonneg (by nlinarith)
    have ht1 : Real.tanh ((applied / recd - 1) * 1.2) < 1 := tanh_lt_one _
    simp only [Risk.doseScore, Risk.clampNum]
    rw [if_neg (not_le.mpr h), if_neg (not_le.mpr (by linarith : (0:ℝ) < applied / recd)),
      if_neg (not_le.mpr h2)]
    exact clampR_eq_self (by linarith) (by linarith)
  refine ⟨hb0, hb1, hb2, hb3, ?_⟩
  rcases le_or_lt recd 0 with h | h
  · rw [hb0 h]; norm_num
  rcases le_or_lt (applied / recd) 0 with h2 | h2
  · rw [hb1 h h2]; norm_num
  rcases le_or_lt (applied / recd) 1 with h3 | h3
  · rw [hb2 h h2 h3]; linarith
  · rw [hb3 h h3]
    have := tanh_lt_one ((applied / recd - 1) * 1.2)
    linarith

/-- Claim C2 witness: overdose ratio 2 gives the saturating branch, strictly
below 1; equal dose gives exactly 0.70. -/
theorem c2_doseScore_witness :
    Risk.doseScore (some (.num 2)) (some (.num 1))
      = 0.70 + 0.30 * Real.tanh (((2 : ℝ) / 1 - 1) * 1.2)
    ∧ Risk.doseScore (some (.num 2)) (some (.num 1)) < 1
    ∧ Risk.doseScore (some (.num 1)) (some (.num 1)) = 0.15 + 0.55 * ((1 : ℝ) / 1) :=
  ⟨(c2_doseScore_amended 2 1).2.2.2.1 (by norm_num) (by norm_num),
   (c2_doseScore_amended 2 1).2.2.2.2,
   (c2_doseScore_amended 1 1).2.2.1 (by norm_num) (by norm_num) (by norm_num)⟩

end PestiScan
